import Mathlib

/-!
Shallow embedding of `src/server.py`, a FastAPI broadcast relay.

The module-level mutable data of the source (`messages : List[Message]` and
`ConnectionManager.active_connections : List[WebSocket]`) is combined into one
`ServerState` record that every operation threads explicitly.  WebSocket
objects are modelled by `Nat` handles (Python compares them by identity).
Whether `connection.send_json` / `websocket.send_json` succeeds on a given
connection is an environment parameter `sendOk : Nat → Bool`; a `false` entry
models the send raising an exception.  The randomness consumed by
`uuid.uuid4()` and the clock value of `datetime.now().isoformat()` are passed
in as explicit arguments (`r : Nat`, `ts : String`).  Each handler returns,
besides its new state and its Python-level result, a trace of the primitive
effects it performed, in order, so ordering properties (history append before
fan-out, replay before inbound processing) are provable.
-/

set_option autoImplicit false

deriving instance DecidableEq for Except

namespace Server

/-- One lowercase hexadecimal digit, as `hex` rendering uses. -/
def hexChar (n : Nat) : Char :=
  if n < 10 then Char.ofNat (48 + n) else Char.ofNat (87 + n)

/-- Fixed-width lowercase hexadecimal rendering, most significant digit first. -/
def hexDigits : Nat → Nat → List Char
  | 0, _ => []
  | d + 1, v => hexDigits d (v / 16) ++ [hexChar (v % 16)]

/-- Model of `str(uuid.uuid4())`: a canonical 8-4-4-4-12 UUID string built from 122
random bits of `r`, with the version nibble forced to `4` and the variant bits
to `10`. -/
def uuid4 (r : Nat) : String :=
  String.mk (hexDigits 8 (r % 2 ^ 32)
    ++ '-' :: hexDigits 4 (r / 2 ^ 32 % 2 ^ 16)
    ++ '-' :: hexDigits 4 (4 * 2 ^ 12 + r / 2 ^ 48 % 2 ^ 12)
    ++ '-' :: hexDigits 4 (2 ^ 15 + r / 2 ^ 60 % 2 ^ 14)
    ++ '-' :: hexDigits 12 (r / 2 ^ 74 % 2 ^ 48))

/-- The `Message` pydantic model: `id` and `timestamp` have default factories
(`str(uuid.uuid4())` and `datetime.now().isoformat()`), `content` and `sender`
are required fields. -/
structure Message where
  id : String
  content : String
  sender : String
  timestamp : String
deriving DecidableEq, Repr

/-- Construction `Message(content=..., sender=...)` via the default factories,
given the uuid randomness `r` and the clock reading `ts`. -/
def mkMessage (r : Nat) (content sender ts : String) : Message :=
  ⟨uuid4 r, content, sender, ts⟩

/-- The mutable module state: `messages: List[Message] = []` together with
`manager.active_connections: List[WebSocket] = []`. -/
structure ServerState where
  messages : List Message
  active_connections : List Nat
deriving DecidableEq, Repr

/-- Primitive effects a handler performs, in program order. -/
inductive WsAction where
  /-- models `websocket.accept()` -/
  | accept (ws : Nat)
  /-- models `self.active_connections.append(websocket)` -/
  | register (ws : Nat)
  /-- models `messages.append(message)` -/
  | append (m : Message)
  /-- models a `connection.send_json(message.dict())` that succeeded -/
  | send (ws : Nat) (m : Message)
  /-- models `websocket.send_text(...)` -/
  | sendText (ws : Nat) (s : String)
  /-- models `websocket.receive_json()` returning an inbound unit -/
  | receive (ws : Nat)
  /-- models `self.active_connections.remove(websocket)` -/
  | unregister (ws : Nat)
deriving DecidableEq, Repr

/-- Whether an action is a successful fan-out/replay delivery. -/
def WsAction.isSend : WsAction → Bool
  | .send _ _ => true
  | _ => false

/-- Python exceptions that cross the handler boundary. -/
inductive PyErr where
  /-- a `KeyError` from `message_data["content"]` / `data["sender"]` -/
  | keyError (k : String)
  /-- an exception raised by `send_json` on this connection during `broadcast` -/
  | sendError (ws : Nat)
deriving DecidableEq, Repr

/-- Outcome of one `ConnectionManager.broadcast` pass: the connections whose
`send_json` completed, in iteration order, and the first connection whose send
raised (aborting the `for` loop), if any. -/
structure BroadcastResult where
  delivered : List Nat
  failed : Option Nat
deriving DecidableEq, Repr

/-- Model of `ConnectionManager.broadcast`: `for connection in self.active_connections:
await connection.send_json(message.dict())`.  There is no exception handling
around the send: a raising send stops the loop and propagates. -/
def broadcast (sendOk : Nat → Bool) : List Nat → BroadcastResult
  | [] => ⟨[], none⟩
  | c :: rest =>
    if sendOk c then
      let r := broadcast sendOk rest
      ⟨c :: r.delivered, r.failed⟩
    else ⟨[], some c⟩

/-- Model of `ConnectionManager.connect`: `await websocket.accept()` then
`self.active_connections.append(websocket)`. -/
def connect (st : ServerState) (ws : Nat) : ServerState × List WsAction :=
  (⟨st.messages, st.active_connections ++ [ws]⟩, [.accept ws, .register ws])

/-- Model of `ConnectionManager.disconnect`, i.e. `self.active_connections.remove(websocket)`:
removes the first occurrence, and raises `ValueError` when the element is
absent (Python `list.remove` semantics). -/
def disconnect (ws : Nat) : List Nat → Except String (List Nat)
  | [] => .error "ValueError"
  | c :: rest =>
    if c = ws then .ok rest
    else (disconnect ws rest).map (fun l => c :: l)

/-- State left behind by `manager.disconnect(websocket)` inside an `except`
handler: on success the connection is removed; when `list.remove` raises
`ValueError` the list is not mutated (the error escapes the handler and kills
the session task, but the registry keeps its previous contents). -/
def applyDisconnect (st : ServerState) (ws : Nat) : ServerState :=
  match disconnect ws st.active_connections with
  | .ok l => ⟨st.messages, l⟩
  | .error _ => st

/-- Python `d[k]` as a partial lookup: first binding of `k`, if any. -/
def dictGet (d : List (String × String)) (k : String) : Option String :=
  (d.find? (fun kv => kv.1 == k)).map (fun kv => kv.2)

/-- Everything `POST /messages` produces: the module state afterwards, the
effect trace, and the HTTP-level outcome (the `Message` returned, or the
exception that escaped the handler). -/
structure PostResult where
  state : ServerState
  trace : List WsAction
  response : Except PyErr Message
deriving Repr

/-- Model of `post_message(message_data: dict)`:
reads `message_data["content"]` and `message_data["sender"]` (a missing key
raises `KeyError` before anything is stored), constructs the `Message`,
appends it to `messages`, then `await manager.broadcast(message)`; an
exception from a fan-out send propagates out of the handler after the append
has already happened. -/
def post_message (sendOk : Nat → Bool) (r : Nat) (ts : String) (st : ServerState)
    (message_data : List (String × String)) : PostResult :=
  match dictGet message_data "content" with
  | none => ⟨st, [], .error (.keyError "content")⟩
  | some content =>
    match dictGet message_data "sender" with
    | none => ⟨st, [], .error (.keyError "sender")⟩
    | some sender =>
      let message := mkMessage r content sender ts
      let st1 : ServerState := ⟨st.messages ++ [message], st.active_connections⟩
      let br := broadcast sendOk st1.active_connections
      let sends := br.delivered.map (fun c => WsAction.send c message)
      match br.failed with
      | none => ⟨st1, .append message :: sends, .ok message⟩
      | some c => ⟨st1, .append message :: sends, .error (.sendError c)⟩

/-- Model of `messages[-limit:]` with Python slice semantics: a negative start index is
offset by the length and clamped at `0`; a nonnegative start (which happens
for `limit <= 0`) drops that many elements from the front. -/
def pyTail (msgs : List Message) (limit : Int) : List Message :=
  let start : Int := -limit
  let start1 : Int := if start < 0 then start + msgs.length else start
  let start2 : Int := if start1 < 0 then 0 else start1
  msgs.drop start2.toNat

/-- Model of `get_messages(limit: Optional[int] = 10)`: `return messages[-limit:]`.
The state is returned unchanged alongside the response body. -/
def get_messages (st : ServerState) (limit : Int) : ServerState × List Message :=
  (st, pyTail st.messages limit)

/-- One inbound unit observed by `websocket.receive_json()` in the `/ws` loop:
either a JSON dict (paired with the uuid randomness and clock value its
publication would consume) or a client disconnect. -/
inductive Inbound where
  | json (data : List (String × String)) (r : Nat) (ts : String)
  | disconnectSignal
deriving Repr

/-- Result of one iteration of the `/ws` receive loop: either the session is
still in the loop, or an exception path ran `manager.disconnect` and the
session ended. -/
inductive StepResult where
  | active (st : ServerState) (trace : List WsAction)
  | closed (st : ServerState) (trace : List WsAction)
deriving DecidableEq, Repr

/-- The state component of a step result. -/
def StepResult.state : StepResult → ServerState
  | .active st _ => st
  | .closed st _ => st

/-- The trace component of a step result. -/
def StepResult.trace : StepResult → List WsAction
  | .active _ tr => tr
  | .closed _ tr => tr

/-- One iteration of the `while True` loop of `websocket_endpoint`:
`data = await websocket.receive_json()`, then
`Message(content=data["content"], sender=data["sender"])` (a missing key
raises `KeyError`, caught by `except Exception`, which logs and runs
`manager.disconnect(websocket)`), then `messages.append(message)` and
`await manager.broadcast(message)` (a raising fan-out send is likewise caught
by `except Exception` and closes this session).  A `WebSocketDisconnect` from
the receive is caught and also runs `manager.disconnect(websocket)`. -/
def websocket_step (sendOk : Nat → Bool) (ws : Nat) (st : ServerState) :
    Inbound → StepResult
  | .disconnectSignal => .closed (applyDisconnect st ws) [.receive ws, .unregister ws]
  | .json data r ts =>
    match dictGet data "content", dictGet data "sender" with
    | none, _ => .closed (applyDisconnect st ws) [.receive ws, .unregister ws]
    | some _, none => .closed (applyDisconnect st ws) [.receive ws, .unregister ws]
    | some content, some sender =>
      let message := mkMessage r content sender ts
      let st1 : ServerState := ⟨st.messages ++ [message], st.active_connections⟩
      let br := broadcast sendOk st1.active_connections
      let sends := br.delivered.map (fun c => WsAction.send c message)
      match br.failed with
      | none => .active st1 (.receive ws :: .append message :: sends)
      | some _ => .closed (applyDisconnect st1 ws)
          (.receive ws :: .append message :: (sends ++ [.unregister ws]))

/-- The `while True` receive loop of `websocket_endpoint`, consuming a finite
schedule of inbound units (an exhausted schedule models a session still
blocked in `receive_json`). -/
def sessionLoop (sendOk : Nat → Bool) (ws : Nat) :
    ServerState → List Inbound → ServerState × List WsAction
  | st, [] => (st, [])
  | st, inb :: rest =>
    match websocket_step sendOk ws st inb with
    | .closed st1 tr => (st1, tr)
    | .active st1 tr =>
      let res := sessionLoop sendOk ws st1 rest
      (res.1, tr ++ res.2)

/-- Model of `websocket_endpoint(websocket)`: `await manager.connect(websocket)`, then
the replay `for message in messages[-10:]: await websocket.send_json(...)`
(a raising replay send is caught by `except Exception`, which runs
`manager.disconnect`), then the receive loop. -/
def websocket_endpoint (sendOk : Nat → Bool) (st : ServerState) (ws : Nat)
    (inbounds : List Inbound) : ServerState × List WsAction :=
  let c := connect st ws
  let replay := pyTail c.1.messages 10
  if sendOk ws then
    let res := sessionLoop sendOk ws c.1 inbounds
    (res.1, c.2 ++ replay.map (fun m => WsAction.send ws m) ++ res.2)
  else
    match replay with
    | [] =>
      let res := sessionLoop sendOk ws c.1 inbounds
      (res.1, c.2 ++ res.2)
    | _ :: _ => (applyDisconnect c.1 ws, c.2 ++ [.unregister ws])

/-- The `while True` body of the `/ws/heartbeat` endpoint, unrolled for the
`k` iterations that complete before the client disconnects: each iteration is
`await websocket.send_text("heartbeat")` then `await asyncio.sleep(5)`. -/
def heartbeatLoop (ws : Nat) : ServerState → Nat → ServerState × List WsAction
  | st, 0 => (st, [])
  | st, k + 1 =>
    let rest := heartbeatLoop ws st k
    (rest.1, .sendText ws "heartbeat" :: rest.2)

/-- Model of `heartbeat(websocket)`: `await websocket.accept()` (the heartbeat socket is
never added to `manager.active_connections`), then the send/sleep loop until
`WebSocketDisconnect`. -/
def heartbeat (ws : Nat) (st : ServerState) (k : Nat) : ServerState × List WsAction :=
  let rest := heartbeatLoop ws st k
  (rest.1, .accept ws :: rest.2)


/-! ## Basic lemmas about the embedded operations -/

theorem hexDigits_length (d : Nat) : ∀ v : Nat, (hexDigits d v).length = d := by
  induction d with
  | zero => intro v; rfl
  | succ d ih => intro v; simp [hexDigits, ih]

theorem uuid4_length (r : Nat) : (uuid4 r).length = 36 := by
  simp [uuid4, String.length, hexDigits_length]

theorem uuid4_ne_empty (r : Nat) : uuid4 r ≠ "" := by
  intro h
  have h2 := uuid4_length r
  rw [h] at h2
  exact absurd h2 (by decide)

theorem dictGet_content (c s : String) :
    dictGet [("content", c), ("sender", s)] "content" = some c := rfl

theorem dictGet_sender (c s : String) :
    dictGet [("content", c), ("sender", s)] "sender" = some s := rfl

theorem broadcast_ok (sendOk : Nat → Bool) (conns : List Nat)
    (h : ∀ x ∈ conns, sendOk x = true) :
    broadcast sendOk conns = ⟨conns, none⟩ := by
  induction conns with
  | nil => rfl
  | cons c rest ih =>
    have hc : sendOk c = true := h c (by simp)
    simp [broadcast, hc, ih (fun x hx => h x (by simp [hx]))]

theorem broadcast_fail (sendOk : Nat → Bool) (pre : List Nat) (bad : Nat)
    (post : List Nat) (hpre : ∀ x ∈ pre, sendOk x = true) (hbad : sendOk bad = false) :
    broadcast sendOk (pre ++ bad :: post) = ⟨pre, some bad⟩ := by
  induction pre with
  | nil => simp [broadcast, hbad]
  | cons c rest ih =>
    have hc : sendOk c = true := hpre c (by simp)
    simp [broadcast, hc, ih (fun x hx => hpre x (by simp [hx]))]

theorem disconnect_eq_error (ws : Nat) (l : List Nat) (h : ws ∉ l) :
    disconnect ws l = .error "ValueError" := by
  induction l with
  | nil => rfl
  | cons c rest ih =>
    have hc : ¬ c = ws := by rintro rfl; exact h (by simp)
    simp [disconnect, hc, ih (fun hm => h (by simp [hm])), Except.map]

theorem disconnect_eq_ok (ws : Nat) (pre post : List Nat) (hpre : ws ∉ pre) :
    disconnect ws (pre ++ ws :: post) = .ok (pre ++ post) := by
  induction pre with
  | nil => simp [disconnect]
  | cons c rest ih =>
    have hc : ¬ c = ws := by rintro rfl; exact hpre (by simp)
    simp [disconnect, hc, ih (fun hm => hpre (by simp [hm])), Except.map]

theorem applyDisconnect_messages (st : ServerState) (ws : Nat) :
    (applyDisconnect st ws).messages = st.messages := by
  unfold applyDisconnect
  split <;> rfl

theorem pyTail_pos (msgs : List Message) (n : Int) (h : 0 < n) :
    pyTail msgs n = msgs.drop (msgs.length - n.toNat) := by
  simp only [pyTail]
  have h1 : -n < 0 := by omega
  rw [if_pos h1]
  congr 1
  split <;> omega

theorem pyTail_nonpos (msgs : List Message) (n : Int) (h : n ≤ 0) :
    pyTail msgs n = msgs.drop (-n).toNat := by
  simp only [pyTail]
  have h1 : ¬ (-n < 0) := by omega
  rw [if_neg h1, if_neg h1]

theorem pyTail_nil (n : Int) : pyTail [] n = [] := by
  simp only [pyTail]
  simp

theorem pyTail_append_one (msgs : List Message) (m : Message) :
    pyTail (msgs ++ [m]) 1 = [m] := by
  rw [pyTail_pos _ _ (by omega)]
  have h : (msgs ++ [m]).length - (1 : Int).toNat = msgs.length := by
    simp
  rw [h]
  exact List.drop_left msgs [m]

/-! ## C2: bounded tail -/

/-- A concrete stored message used by counterexamples and witnesses. -/
def m0 : Message := ⟨"id0", "c0", "s0", "t0"⟩

/-- C2 counterexample: the claim says GET /messages returns an empty sequence
whenever the limit is at most zero, but with one stored message a limit of `0`
evaluates `messages[-0:] = messages[0:]` and returns the whole store. -/
theorem C2_counterexample :
    (get_messages ⟨[m0], []⟩ 0).2 = [m0] ∧ [m0] ≠ ([] : List Message) := by
  decide

/-- C2 (amended): GET /messages leaves the state unchanged; for a limit
`n > 0` it returns the last `min n (store size)` messages, oldest first (a
suffix of the store, in store order); but for `n ≤ 0` it returns the store
with its first `-n` entries dropped — in particular the whole store when
`n = 0` — rather than an empty sequence. -/
theorem C2_get_messages_tail (st : ServerState) (n : Int) :
    (get_messages st n).1 = st ∧
    (0 < n →
      (get_messages st n).2 = st.messages.drop (st.messages.length - n.toNat) ∧
      (get_messages st n).2.length = min n.toNat st.messages.length) ∧
    (n ≤ 0 → (get_messages st n).2 = st.messages.drop (-n).toNat) := by
  refine ⟨rfl, fun h => ?_, fun h => pyTail_nonpos _ _ h⟩
  have h2 : (get_messages st n).2 = st.messages.drop (st.messages.length - n.toNat) :=
    pyTail_pos _ _ h
  refine ⟨h2, ?_⟩
  rw [h2]
  simp [List.length_drop]
  omega

/-- C2 witness: with one stored message and limit five, GET /messages returns
that single message. -/
theorem C2_get_messages_tail_witness :
    (get_messages ⟨[m0], []⟩ 5).2 = [m0] := by
  have h := (C2_get_messages_tail ⟨[m0], []⟩ 5).2.1 (by decide)
  simpa using h.1

/-! ## C3: registry idempotence -/

/-- C3 counterexample: unregistering handle `1` from the singleton registry
succeeds once, and the second unregistration raises `ValueError` — Python
`list.remove` is not idempotent. -/
theorem C3_counterexample :
    disconnect 1 [1] = .ok [] ∧
    disconnect 1 ([] : List Nat) = .error "ValueError" := by
  decide

/-- C3 (amended): unregistering a registered handle removes exactly its entry;
unregistering it a second time leaves registry membership unchanged, but it is
not an error-free no-op: `list.remove` raises `ValueError` (mutating
nothing). -/
theorem C3_disconnect_twice (msgs : List Message) (ws : Nat) (pre post : List Nat)
    (hpre : ws ∉ pre) (hpost : ws ∉ post) :
    disconnect ws (pre ++ ws :: post) = .ok (pre ++ post) ∧
    disconnect ws (pre ++ post) = .error "ValueError" ∧
    applyDisconnect ⟨msgs, pre ++ post⟩ ws = ⟨msgs, pre ++ post⟩ := by
  have hmem : ws ∉ pre ++ post := by
    intro hm
    rcases List.mem_append.1 hm with hm | hm
    · exact hpre hm
    · exact hpost hm
  refine ⟨disconnect_eq_ok ws pre post hpre, disconnect_eq_error ws _ hmem, ?_⟩
  unfold applyDisconnect
  rw [disconnect_eq_error ws _ hmem]

/-- C3 witness: on the registry `[2, 1]`, unregistering `1` yields `[2]`;
unregistering `1` again raises `ValueError` and the registry keeps `[2]`. -/
theorem C3_disconnect_twice_witness :
    disconnect 1 [2, 1] = .ok [2] ∧
    disconnect 1 [2] = .error "ValueError" ∧
    applyDisconnect ⟨[], [2]⟩ 1 = ⟨[], [2]⟩ :=
  C3_disconnect_twice [] 1 [2] [] (by decide) (by decide)


/-! ## Lemmas about post_message on well-formed and malformed payloads -/

theorem post_message_wf_state (sendOk : Nat → Bool) (r : Nat) (ts : String)
    (st : ServerState) (d : List (String × String)) (c s : String)
    (hc : dictGet d "content" = some c) (hs : dictGet d "sender" = some s) :
    (post_message sendOk r ts st d).state =
      ⟨st.messages ++ [mkMessage r c s ts], st.active_connections⟩ := by
  simp only [post_message, hc, hs]
  rcases h : (broadcast sendOk st.active_connections).failed with _ | x <;> simp [h]

theorem post_message_wf_trace (sendOk : Nat → Bool) (r : Nat) (ts : String)
    (st : ServerState) (d : List (String × String)) (c s : String)
    (hc : dictGet d "content" = some c) (hs : dictGet d "sender" = some s) :
    (post_message sendOk r ts st d).trace =
      WsAction.append (mkMessage r c s ts) ::
        (broadcast sendOk st.active_connections).delivered.map
          (fun x => WsAction.send x (mkMessage r c s ts)) := by
  simp only [post_message, hc, hs]
  rcases h : (broadcast sendOk st.active_connections).failed with _ | x <;> simp [h]

theorem post_message_wf_response (sendOk : Nat → Bool) (r : Nat) (ts : String)
    (st : ServerState) (d : List (String × String)) (c s : String)
    (hc : dictGet d "content" = some c) (hs : dictGet d "sender" = some s) :
    (post_message sendOk r ts st d).response =
      (match (broadcast sendOk st.active_connections).failed with
        | none => .ok (mkMessage r c s ts)
        | some x => .error (.sendError x)) := by
  simp only [post_message, hc, hs]
  rcases h : (broadcast sendOk st.active_connections).failed with _ | x <;> simp [h]

theorem post_message_no_content (sendOk : Nat → Bool) (r : Nat) (ts : String)
    (st : ServerState) (d : List (String × String))
    (h : dictGet d "content" = none) :
    post_message sendOk r ts st d = ⟨st, [], .error (.keyError "content")⟩ := by
  simp only [post_message, h]

theorem post_message_no_sender (sendOk : Nat → Bool) (r : Nat) (ts : String)
    (st : ServerState) (d : List (String × String)) (c : String)
    (hc : dictGet d "content" = some c) (hs : dictGet d "sender" = none) :
    post_message sendOk r ts st d = ⟨st, [], .error (.keyError "sender")⟩ := by
  simp only [post_message, hc, hs]

/-! ## C1: fan-out isolation -/

/-- C1 counterexample: with endpoints `[1, 2]` registered and endpoint `1`'s
send raising, the fan-out loop aborts before endpoint `2` — the trace of the
publish contains no successful delivery at all — and the handler ends in the
propagated send exception instead of returning the Message. -/
theorem C1_counterexample :
    ((post_message (fun c => c == 2) 0 "t" ⟨[], [1, 2]⟩
        [("content", "hi"), ("sender", "alice")]).trace.all
      (fun a => ! a.isSend)) = true ∧
    (post_message (fun c => c == 2) 0 "t" ⟨[], [1, 2]⟩
        [("content", "hi"), ("sender", "alice")]).response =
      .error (.sendError 1) := by
  decide

/-- C1 (amended): when a registered endpoint's send fails during fan-out, only
the endpoints registered before it receive the message; the endpoints after it
receive nothing, and the send exception propagates out of the handler, which
produces an error instead of returning the constructed Message — though the
message has already been appended to history. -/
theorem C1_broadcast_aborts (sendOk : Nat → Bool) (r : Nat) (ts : String)
    (msgs : List Message) (pre post : List Nat) (bad : Nat) (c s : String)
    (hpre : ∀ x ∈ pre, sendOk x = true) (hbad : sendOk bad = false) :
    post_message sendOk r ts ⟨msgs, pre ++ bad :: post⟩
        [("content", c), ("sender", s)] =
      ⟨⟨msgs ++ [mkMessage r c s ts], pre ++ bad :: post⟩,
        WsAction.append (mkMessage r c s ts) ::
          pre.map (fun x => WsAction.send x (mkMessage r c s ts)),
        .error (.sendError bad)⟩ := by
  simp only [post_message, dictGet_content, dictGet_sender]
  rw [broadcast_fail sendOk pre bad post hpre hbad]

/-- C1 witness: endpoints `[2, 1, 3]` with endpoint `1` failing: endpoint `2`
(earlier) is delivered, endpoint `3` (later) is not, the handler errors, and
the message is in history. -/
theorem C1_broadcast_aborts_witness :
    post_message (fun c => c == 2) 5 "ts" ⟨[], [2, 1, 3]⟩
        [("content", "x"), ("sender", "a")] =
      ⟨⟨[mkMessage 5 "x" "a" "ts"], [2, 1, 3]⟩,
        [WsAction.append (mkMessage 5 "x" "a" "ts"),
          WsAction.send 2 (mkMessage 5 "x" "a" "ts")],
        .error (.sendError 1)⟩ :=
  C1_broadcast_aborts (fun c => c == 2) 5 "ts" [] [2] [3] 1 "x" "a"
    (by decide) (by decide)

/-! ## C10: error atomicity of the submission interface -/

/-- C10: a POST /messages body missing the key "content" or the key "sender"
raises KeyError before any append: the state (history store and receiver
registry alike) is unchanged, no effect at all is performed, and the handler
produces an error rather than a Message. -/
theorem C10_missing_key_atomic (sendOk : Nat → Bool) (r : Nat) (ts : String)
    (st : ServerState) (d : List (String × String))
    (h : dictGet d "content" = none ∨ dictGet d "sender" = none) :
    (post_message sendOk r ts st d).state = st ∧
    (post_message sendOk r ts st d).trace = [] ∧
    ∃ k, (post_message sendOk r ts st d).response = .error (.keyError k) := by
  rcases h with h | h
  · rw [post_message_no_content sendOk r ts st d h]
    exact ⟨rfl, rfl, "content", rfl⟩
  · rcases hc : dictGet d "content" with _ | c
    · rw [post_message_no_content sendOk r ts st d hc]
      exact ⟨rfl, rfl, "content", rfl⟩
    · rw [post_message_no_sender sendOk r ts st d c hc h]
      exact ⟨rfl, rfl, "sender", rfl⟩

/-- C10 witness: a body holding only a sender is rejected with KeyError and
the state (one stored message, one registered endpoint) is untouched. -/
theorem C10_missing_key_atomic_witness :
    (post_message (fun _ => true) 0 "t" ⟨[m0], [7]⟩ [("sender", "a")]).state
        = ⟨[m0], [7]⟩ ∧
    (post_message (fun _ => true) 0 "t" ⟨[m0], [7]⟩ [("sender", "a")]).trace = [] ∧
    ∃ k, (post_message (fun _ => true) 0 "t" ⟨[m0], [7]⟩ [("sender", "a")]).response
        = .error (.keyError k) :=
  C10_missing_key_atomic (fun _ => true) 0 "t" ⟨[m0], [7]⟩ [("sender", "a")]
    (Or.inl (by decide))

/-! ## C7: publish round-trip -/

/-- C7: whenever the POST /messages handler returns a Message (rather than
raising), that Message carries the submitted content and sender, a non-empty
server-assigned id (a UUID4 string), and the clock reading as its timestamp;
and tail(1) of the history immediately afterwards is exactly that message. -/
theorem C7_publish_roundtrip (sendOk : Nat → Bool) (r : Nat) (ts : String)
    (st : ServerState) (d : List (String × String)) (c s : String) (m : Message)
    (hc : dictGet d "content" = some c) (hs : dictGet d "sender" = some s)
    (hresp : (post_message sendOk r ts st d).response = .ok m) :
    m.content = c ∧ m.sender = s ∧ m.id ≠ "" ∧ m.timestamp = ts ∧
    (get_messages (post_message sendOk r ts st d).state 1).2 = [m] := by
  rw [post_message_wf_response sendOk r ts st d c s hc hs] at hresp
  have hstate := post_message_wf_state sendOk r ts st d c s hc hs
  rcases hfail : (broadcast sendOk st.active_connections).failed with _ | x
  · rw [hfail] at hresp
    simp only [Except.ok.injEq] at hresp
    subst hresp
    refine ⟨rfl, rfl, uuid4_ne_empty r, rfl, ?_⟩
    rw [get_messages, hstate]
    exact pyTail_append_one st.messages (mkMessage r c s ts)
  · rw [hfail] at hresp
    exact absurd hresp (by simp)

/-- C7 witness: publishing content "hi" from sender "alice" at clock "T" into
an empty server returns exactly that data with a non-empty id, and tail(1)
returns the stored message. -/
theorem C7_publish_roundtrip_witness :
    (mkMessage 0 "hi" "alice" "T").content = "hi" ∧
    (mkMessage 0 "hi" "alice" "T").sender = "alice" ∧
    (mkMessage 0 "hi" "alice" "T").id ≠ "" ∧
    (mkMessage 0 "hi" "alice" "T").timestamp = "T" ∧
    (get_messages (post_message (fun _ => true) 0 "T" ⟨[], []⟩
        [("content", "hi"), ("sender", "alice")]).state 1).2
      = [mkMessage 0 "hi" "alice" "T"] :=
  C7_publish_roundtrip (fun _ => true) 0 "T" ⟨[], []⟩
    [("content", "hi"), ("sender", "alice")] "hi" "alice" (mkMessage 0 "hi" "alice" "T")
    (by decide) (by decide) (by decide)


/-! ## Lemmas about the /ws receive-loop step -/

theorem websocket_step_malformed (sendOk : Nat → Bool) (ws : Nat) (st : ServerState)
    (data : List (String × String)) (r : Nat) (ts : String)
    (h : dictGet data "content" = none ∨ dictGet data "sender" = none) :
    websocket_step sendOk ws st (.json data r ts) =
      .closed (applyDisconnect st ws) [.receive ws, .unregister ws] := by
  rcases h with h | h
  · rcases hs : dictGet data "sender" with _ | s <;>
      simp only [websocket_step, h, hs]
  · rcases hc : dictGet data "content" with _ | c <;>
      simp only [websocket_step, h, hc]

theorem websocket_step_wf_messages (sendOk : Nat → Bool) (ws : Nat)
    (st : ServerState) (data : List (String × String)) (c s : String)
    (r : Nat) (ts : String)
    (hc : dictGet data "content" = some c) (hs : dictGet data "sender" = some s) :
    (websocket_step sendOk ws st (.json data r ts)).state.messages =
      st.messages ++ [mkMessage r c s ts] := by
  simp only [websocket_step, hc, hs]
  rcases h : (broadcast sendOk st.active_connections).failed with _ | x <;>
    simp [h, StepResult.state, applyDisconnect_messages]

theorem websocket_step_wf_trace (sendOk : Nat → Bool) (ws : Nat)
    (st : ServerState) (data : List (String × String)) (c s : String)
    (r : Nat) (ts : String)
    (hc : dictGet data "content" = some c) (hs : dictGet data "sender" = some s) :
    ∃ rest, (websocket_step sendOk ws st (.json data r ts)).trace =
      .receive ws :: .append (mkMessage r c s ts) :: rest := by
  simp only [websocket_step, hc, hs]
  rcases h : (broadcast sendOk st.active_connections).failed with _ | x <;>
    simp [h, StepResult.trace]

/-! ## C4: malformed inbound payload -/

/-- C4 counterexample: session `1` (the only registered endpoint) receives a
payload missing "sender"; nothing is appended or broadcast, but the session
does not stay registered and keep processing — the KeyError lands in the
generic exception handler, which unregisters the endpoint and ends the
loop. -/
theorem C4_counterexample :
    websocket_step (fun _ => true) 1 ⟨[], [1]⟩ (Inbound.json [("content", "hi")] 0 "t") =
      .closed ⟨[], []⟩ [.receive 1, .unregister 1] := by
  decide

/-- C4 (amended): an inbound payload missing "content" or "sender" is neither
broadcast nor appended to the history store, but it terminates the session:
the KeyError is caught by the generic handler, which runs
`manager.disconnect` (unregistering the endpoint) and ends the receive
loop. -/
theorem C4_malformed_closes (sendOk : Nat → Bool) (ws : Nat) (st : ServerState)
    (data : List (String × String)) (r : Nat) (ts : String)
    (h : dictGet data "content" = none ∨ dictGet data "sender" = none) :
    websocket_step sendOk ws st (.json data r ts) =
      .closed (applyDisconnect st ws) [.receive ws, .unregister ws] ∧
    (applyDisconnect st ws).messages = st.messages ∧
    (∀ m, WsAction.append m ∉ [WsAction.receive ws, WsAction.unregister ws]) ∧
    (∀ w m, WsAction.send w m ∉ [WsAction.receive ws, WsAction.unregister ws]) := by
  refine ⟨websocket_step_malformed sendOk ws st data r ts h,
    applyDisconnect_messages st ws, ?_, ?_⟩
  · intro m hm
    simp at hm
  · intro w m hm
    simp at hm

/-- C4 witness: with history `[m0]` and registry `[1, 2]`, a payload holding
only a sender closes session `1`, removes it from the registry, and leaves
history untouched. -/
theorem C4_malformed_closes_witness :
    websocket_step (fun _ => true) 1 ⟨[m0], [1, 2]⟩ (Inbound.json [("sender", "a")] 0 "t") =
      .closed (applyDisconnect ⟨[m0], [1, 2]⟩ 1) [.receive 1, .unregister 1] ∧
    (applyDisconnect ⟨[m0], [1, 2]⟩ 1).messages = [m0] ∧
    (∀ m, WsAction.append m ∉ [WsAction.receive 1, WsAction.unregister 1]) ∧
    (∀ w m, WsAction.send w m ∉ [WsAction.receive 1, WsAction.unregister 1]) :=
  C4_malformed_closes (fun _ => true) 1 ⟨[m0], [1, 2]⟩ [("sender", "a")] 0 "t"
    (Or.inl (by decide))

/-! ## C5: sequential publish order -/

/-- One well-formed publish, from either surface: an HTTP POST /messages call
or a message received on a /ws session (identified by its socket). -/
inductive PublishCall where
  | http (content sender : String) (r : Nat) (ts : String)
  | wsRecv (ws : Nat) (content sender : String) (r : Nat) (ts : String)
deriving Repr

/-- The Message a publish call constructs. -/
def PublishCall.message : PublishCall → Message
  | .http c s r ts => mkMessage r c s ts
  | .wsRecv _ c s r ts => mkMessage r c s ts

/-- Run a sequence of publish calls to completion, one at a time. -/
def runPublishes (sendOk : Nat → Bool) : ServerState → List PublishCall → ServerState
  | st, [] => st
  | st, .http c s r ts :: rest =>
      runPublishes sendOk
        (post_message sendOk r ts st [("content", c), ("sender", s)]).state rest
  | st, .wsRecv w c s r ts :: rest =>
      runPublishes sendOk
        (websocket_step sendOk w st (.json [("content", c), ("sender", s)] r ts)).state rest

theorem runPublishes_messages (sendOk : Nat → Bool) (calls : List PublishCall) :
    ∀ st : ServerState, (runPublishes sendOk st calls).messages =
      st.messages ++ calls.map PublishCall.message := by
  induction calls with
  | nil => intro st; simp [runPublishes]
  | cons call rest ih =>
    intro st
    cases call with
    | http c s r ts =>
      rw [runPublishes, ih, post_message_wf_state sendOk r ts st _ c s
        (dictGet_content c s) (dictGet_sender c s)]
      simp [PublishCall.message]
    | wsRecv w c s r ts =>
      have hmsgs := websocket_step_wf_messages sendOk w st
        [("content", c), ("sender", s)] c s r ts (dictGet_content c s) (dictGet_sender c s)
      rw [runPublishes, ih]
      rw [hmsgs]
      simp [PublishCall.message]

/-- C5: starting from empty history, any sequence of publish calls (from the
POST handler or a /ws session) completing one at a time leaves history holding
exactly the constructed messages in call-completion order; for any bound `N`
at least the call count, tail(N) returns exactly those messages; and each
publish records its history append strictly before any fan-out send: the POST
trace is the append followed only by (successful) sends, and the /ws step
trace is the receive, then the append, then the rest. -/
theorem C5_sequential_publish_order (sendOk : Nat → Bool) (conns : List Nat)
    (calls : List PublishCall) (N : Int) (hN : (calls.length : Int) ≤ N) :
    (runPublishes sendOk ⟨[], conns⟩ calls).messages = calls.map PublishCall.message ∧
    (get_messages (runPublishes sendOk ⟨[], conns⟩ calls) N).2 =
      calls.map PublishCall.message ∧
    (∀ (st : ServerState) (c s : String) (r : Nat) (ts : String),
      (post_message sendOk r ts st [("content", c), ("sender", s)]).trace =
        WsAction.append (mkMessage r c s ts) ::
          (broadcast sendOk st.active_connections).delivered.map
            (fun x => WsAction.send x (mkMessage r c s ts))) ∧
    (∀ (st : ServerState) (w : Nat) (c s : String) (r : Nat) (ts : String),
      ∃ rest, (websocket_step sendOk w st (.json [("content", c), ("sender", s)] r ts)).trace =
        .receive w :: .append (mkMessage r c s ts) :: rest) := by
  have hmsgs : (runPublishes sendOk ⟨[], conns⟩ calls).messages =
      calls.map PublishCall.message := by
    rw [runPublishes_messages]
    simp
  refine ⟨hmsgs, ?_, ?_, ?_⟩
  · show pyTail (runPublishes sendOk ⟨[], conns⟩ calls).messages N =
      calls.map PublishCall.message
    rw [hmsgs]
    rcases lt_or_le 0 N with hpos | hle
    · rw [pyTail_pos _ _ hpos]
      have hz : (calls.map PublishCall.message).length - N.toNat = 0 := by
        simp only [List.length_map]
        omega
      rw [hz, List.drop_zero]
    · have hlen : calls.length = 0 := by omega
      rcases List.length_eq_zero.1 hlen with rfl
      exact pyTail_nil N
  · intro st c s r ts
    exact post_message_wf_trace sendOk r ts st _ c s (dictGet_content c s) (dictGet_sender c s)
  · intro st w c s r ts
    exact websocket_step_wf_trace sendOk w st _ c s r ts
      (dictGet_content c s) (dictGet_sender c s)

/-- C5 witness: one HTTP publish followed by one /ws publish, from empty
history, leaves exactly the two constructed messages in order, and tail(3)
returns them. -/
theorem C5_sequential_publish_order_witness :
    (runPublishes (fun _ => true) ⟨[], []⟩
        [PublishCall.http "a" "s1" 0 "t1", PublishCall.wsRecv 9 "b" "s2" 1 "t2"]).messages =
      [mkMessage 0 "a" "s1" "t1", mkMessage 1 "b" "s2" "t2"] ∧
    (get_messages (runPublishes (fun _ => true) ⟨[], []⟩
        [PublishCall.http "a" "s1" 0 "t1", PublishCall.wsRecv 9 "b" "s2" 1 "t2"]) 3).2 =
      [mkMessage 0 "a" "s1" "t1", mkMessage 1 "b" "s2" "t2"] :=
  ⟨(C5_sequential_publish_order (fun _ => true) []
      [PublishCall.http "a" "s1" 0 "t1", PublishCall.wsRecv 9 "b" "s2" 1 "t2"] 3
      (by decide)).1,
   (C5_sequential_publish_order (fun _ => true) []
      [PublishCall.http "a" "s1" 0 "t1", PublishCall.wsRecv 9 "b" "s2" 1 "t2"] 3
      (by decide)).2.1⟩


/-! ## Monotonicity of history across operations -/

theorem post_message_messages_mono (sendOk : Nat → Bool) (r : Nat) (ts : String)
    (st : ServerState) (d : List (String × String)) :
    st.messages <+: (post_message sendOk r ts st d).state.messages := by
  rcases hc : dictGet d "content" with _ | c
  · rw [post_message_no_content sendOk r ts st d hc]
  · rcases hs : dictGet d "sender" with _ | s
    · rw [post_message_no_sender sendOk r ts st d c hc hs]
    · rw [post_message_wf_state sendOk r ts st d c s hc hs]
      exact ⟨[mkMessage r c s ts], rfl⟩

theorem websocket_step_messages_mono (sendOk : Nat → Bool) (ws : Nat)
    (st : ServerState) (inb : Inbound) :
    st.messages <+: (websocket_step sendOk ws st inb).state.messages := by
  cases inb with
  | disconnectSignal =>
    simp only [websocket_step, StepResult.state, applyDisconnect_messages]
    exact List.prefix_rfl
  | json data r ts =>
    rcases hc : dictGet data "content" with _ | c
    · rw [websocket_step_malformed sendOk ws st data r ts (Or.inl hc)]
      simp only [StepResult.state, applyDisconnect_messages]
      exact List.prefix_rfl
    · rcases hs : dictGet data "sender" with _ | s
      · rw [websocket_step_malformed sendOk ws st data r ts (Or.inr hs)]
        simp only [StepResult.state, applyDisconnect_messages]
        exact List.prefix_rfl
      · rw [websocket_step_wf_messages sendOk ws st data c s r ts hc hs]
        exact ⟨[mkMessage r c s ts], rfl⟩

theorem sessionLoop_messages_mono (sendOk : Nat → Bool) (ws : Nat)
    (inbounds : List Inbound) : ∀ st : ServerState,
    st.messages <+: (sessionLoop sendOk ws st inbounds).1.messages := by
  induction inbounds with
  | nil => intro st; exact List.prefix_rfl
  | cons inb rest ih =>
    intro st
    have hstep := websocket_step_messages_mono sendOk ws st inb
    rw [sessionLoop]
    cases hres : websocket_step sendOk ws st inb with
    | active st1 tr =>
      rw [hres] at hstep
      exact hstep.trans (ih st1)
    | closed st1 tr =>
      rw [hres] at hstep
      exact hstep

theorem websocket_endpoint_messages_mono (sendOk : Nat → Bool) (st : ServerState)
    (ws : Nat) (inbounds : List Inbound) :
    st.messages <+: (websocket_endpoint sendOk st ws inbounds).1.messages := by
  simp only [websocket_endpoint, connect]
  cases hok : sendOk ws with
  | true =>
    simp only [hok, if_true]
    exact sessionLoop_messages_mono sendOk ws inbounds
      ⟨st.messages, st.active_connections ++ [ws]⟩
  | false =>
    simp only [hok, Bool.false_eq_true, if_false]
    cases hrep : pyTail st.messages 10 with
    | nil =>
      exact sessionLoop_messages_mono sendOk ws inbounds
        ⟨st.messages, st.active_connections ++ [ws]⟩
    | cons m rest =>
      simp only [applyDisconnect_messages]
      exact List.prefix_rfl

theorem heartbeatLoop_eq (ws : Nat) (st : ServerState) : ∀ k : Nat,
    heartbeatLoop ws st k = (st, List.replicate k (WsAction.sendText ws "heartbeat")) := by
  intro k
  induction k with
  | zero => rfl
  | succ k ih => simp [heartbeatLoop, ih, List.replicate_succ]

/-! ## C6: replay on join -/

/-- C6: for a new /ws session (whose own sends succeed), the endpoint is
accepted and then registered, then the replay `messages[-10:]` — tail(10),
fewer when the store holds fewer — is sent to that endpoint in store order,
and only then does the receive loop run: the whole trace is the accept, the
registration, the replay sends, and then the loop's trace; no part of the
prefix before the loop is an inbound receive. -/
theorem C6_replay_before_inbound (sendOk : Nat → Bool) (st : ServerState)
    (ws : Nat) (inbounds : List Inbound) (hok : sendOk ws = true) :
    websocket_endpoint sendOk st ws inbounds =
      ((sessionLoop sendOk ws ⟨st.messages, st.active_connections ++ [ws]⟩ inbounds).1,
        ([WsAction.accept ws, WsAction.register ws] ++
            (pyTail st.messages 10).map (fun m => WsAction.send ws m)) ++
          (sessionLoop sendOk ws ⟨st.messages, st.active_connections ++ [ws]⟩ inbounds).2) ∧
    ws ∈ (connect st ws).1.active_connections ∧
    (pyTail st.messages 10).length = min 10 st.messages.length ∧
    (∀ a ∈ [WsAction.accept ws, WsAction.register ws] ++
        (pyTail st.messages 10).map (fun m => WsAction.send ws m),
      ∀ w, a ≠ WsAction.receive w) := by
  refine ⟨?_, ?_, ?_, ?_⟩
  · simp only [websocket_endpoint, connect, hok, if_true]
  · simp [connect]
  · rw [pyTail_pos _ _ (by omega)]
    simp only [List.length_drop]
    omega
  · intro a ha w
    rcases List.mem_append.1 ha with h | h
    · simp only [List.mem_cons, List.mem_singleton] at h
      rcases h with rfl | rfl | h
      · simp
      · simp
      · simp at h
    · rcases List.mem_map.1 h with ⟨m, _, rfl⟩
      simp

/-- C6 witness: a session joining a server holding one message `m0` is
accepted, registered, and sent exactly `m0` before its (empty) receive
loop. -/
theorem C6_replay_before_inbound_witness :
    websocket_endpoint (fun _ => true) ⟨[m0], []⟩ 1 [] =
      (⟨[m0], [1]⟩, [WsAction.accept 1, WsAction.register 1, WsAction.send 1 m0]) ∧
    (pyTail [m0] 10).length = min 10 1 :=
  ⟨(C6_replay_before_inbound (fun _ => true) ⟨[m0], []⟩ 1 [] rfl).1,
   (C6_replay_before_inbound (fun _ => true) ⟨[m0], []⟩ 1 [] rfl).2.2.1⟩

/-! ## C8: history is append-only -/

/-- C8: every operation of the system treats history as append-only: the POST
handler and each /ws receive-loop step leave the previous message sequence as
a prefix (appending at most one message at the end), and GET /messages, the
connect/disconnect registry operations, a whole /ws session, and the heartbeat
endpoint never remove or mutate a stored message (GET, connect, disconnect and
heartbeat leave history exactly unchanged). -/
theorem C8_history_append_only :
    (∀ (sendOk : Nat → Bool) (r : Nat) (ts : String) (st : ServerState)
        (d : List (String × String)),
      st.messages <+: (post_message sendOk r ts st d).state.messages) ∧
    (∀ (st : ServerState) (n : Int), (get_messages st n).1 = st) ∧
    (∀ (st : ServerState) (ws : Nat), (connect st ws).1.messages = st.messages) ∧
    (∀ (st : ServerState) (ws : Nat), (applyDisconnect st ws).messages = st.messages) ∧
    (∀ (sendOk : Nat → Bool) (ws : Nat) (st : ServerState) (inb : Inbound),
      st.messages <+: (websocket_step sendOk ws st inb).state.messages) ∧
    (∀ (sendOk : Nat → Bool) (st : ServerState) (ws : Nat) (inbounds : List Inbound),
      st.messages <+: (websocket_endpoint sendOk st ws inbounds).1.messages) ∧
    (∀ (ws : Nat) (st : ServerState) (k : Nat), (heartbeat ws st k).1 = st) :=
  ⟨post_message_messages_mono,
   fun _ _ => rfl,
   fun _ _ => rfl,
   applyDisconnect_messages,
   websocket_step_messages_mono,
   websocket_endpoint_messages_mono,
   fun ws st k => by simp only [heartbeat, heartbeatLoop_eq ws st k]⟩

/-! ## C9: heartbeat leaves server state untouched -/

/-- C9: the heartbeat endpoint leaves the history store and the receiver
registry exactly unchanged; its trace is the transport accept followed by one
fixed liveness text per loop iteration, sent to its own connection only — it
contains no history append and no fan-out delivery. -/
theorem C9_heartbeat_frame (ws : Nat) (st : ServerState) (k : Nat) :
    (heartbeat ws st k).1 = st ∧
    (heartbeat ws st k).2 =
      WsAction.accept ws :: List.replicate k (WsAction.sendText ws "heartbeat") ∧
    (∀ m, WsAction.append m ∉ (heartbeat ws st k).2) ∧
    (∀ w m, WsAction.send w m ∉ (heartbeat ws st k).2) := by
  have h2 : heartbeat ws st k =
      (st, WsAction.accept ws :: List.replicate k (WsAction.sendText ws "heartbeat")) := by
    simp only [heartbeat, heartbeatLoop_eq ws st k]
  rw [h2]
  refine ⟨rfl, rfl, ?_, ?_⟩
  · intro m hm
    simp [List.mem_replicate] at hm
  · intro w m hm
    simp [List.mem_replicate] at hm

end Server
